import Mathlib

/-!
Verification of the loan amortization and projection engine of the
Finance-Dashboard repository.

The definitions below are a shallow embedding of the TypeScript sources:

* `calculateEMI`, `getSelectedEmi`, `getEmisPaid`, `calculateLoanDetails`,
  `generateSuggestions`, `calculatePartPaymentSavings`,
  `calculateLoanProjection`, `getCombinedLoanProjection` embed the current
  calculation module (the version with the guarded EMI formula and the
  5th-of-month payment-count oracle).
* `computeRemainingEmis` embeds the reverse-sizing helper of
  `LoanForm.tsx`.
* `updateLoanFields`, `addPartPaymentLoan`, `removeLastPartPaymentLoan` and
  their list-level wrappers embed the loan hooks of `useFinance.ts`.

Modelling conventions:
* JavaScript numbers are modelled as exact rationals (`ℚ`); the `Number(x)
  || 0` coercions of the source are identities in this model (`0 → 0`,
  everything else unchanged), and JavaScript truthiness of a number is
  `≠ 0`.
* `tenure` is an integer `≥ 0` per the data model (§3 of the spec), so it
  is a `ℕ`.
* Dates are modelled by their month index (`year * 12 + month`) and day of
  month; every date the engine constructs has day 5, so `date-fns`
  `addMonths` never clamps the day and `differenceInMonths` between two
  such anchors is exactly the difference of month indices.  Comparison of
  midnight dates is lexicographic on (month index, day).
* The implicit `new Date()` reads are threaded as an explicit `today`
  parameter.
-/

/-- A calendar date reduced to what the engine inspects: the absolute month
index (`year * 12 + monthIndex`) and the day of month. -/
structure SimpleDate where
  mIdx : ℤ
  day : ℤ
deriving DecidableEq

/-- Midnight-date comparison `a < b`, lexicographic on (month, day). -/
def dateLt (a b : SimpleDate) : Bool :=
  a.mIdx < b.mIdx || (a.mIdx = b.mIdx && a.day < b.day)

/-- `date-fns` `addMonths` on a day-5 anchor (day 5 exists in every month,
so no end-of-month clamping occurs). -/
def addMonthsD (d : SimpleDate) (n : ℤ) : SimpleDate :=
  ⟨d.mIdx + n, d.day⟩

/-- JavaScript `Math.max` on rationals, kept as an executable conditional
(so that concrete runs reduce inside the kernel). -/
def mathMax (a b : ℚ) : ℚ := if a ≤ b then b else a

/-- JavaScript `Math.min` on rationals. -/
def mathMin (a b : ℚ) : ℚ := if a ≤ b then a else b

/-- `Math.max` on integers. -/
def intMax (a b : ℤ) : ℤ := if a ≤ b then b else a

/-- `Math.min` on integers. -/
def intMin (a b : ℤ) : ℤ := if a ≤ b then a else b

/-- `mathMax` agrees with the lattice `max`. -/
theorem mathMax_eq (a b : ℚ) : mathMax a b = max a b := by
  unfold mathMax
  split
  · exact (max_eq_right (by assumption)).symm
  · exact (max_eq_left (le_of_not_le (by assumption))).symm

/-- `mathMin` agrees with the lattice `min`. -/
theorem mathMin_eq (a b : ℚ) : mathMin a b = min a b := by
  unfold mathMin
  split
  · exact (min_eq_left (by assumption)).symm
  · exact (min_eq_right (le_of_not_le (by assumption))).symm

/-- `intMax` agrees with the lattice `max`. -/
theorem intMax_eq (a b : ℤ) : intMax a b = max a b := by
  unfold intMax
  split <;> omega

/-- `intMin` agrees with the lattice `min`. -/
theorem intMin_eq (a b : ℤ) : intMin a b = min a b := by
  unfold intMin
  split <;> omega

/-- A part payment `{id, amount, date, description}`. -/
structure PartPayment where
  id : String
  amount : ℚ
  date : SimpleDate
  description : String
deriving DecidableEq

/-- The `Loan` record (fields the engine reads; `nextEmiDate`,
`lastEmiDate` and `interestRateChanges` are informational and never read by
the calculations, so they are omitted from the model). -/
structure Loan where
  id : String
  name : String
  principalAmount : ℚ
  currentPrincipal : ℚ
  interestRate : ℚ
  tenure : ℕ
  emiAmount : ℚ
  useCustomEmi : Bool
  customEmi : Option ℚ
  startDate : SimpleDate
  isActive : Bool
  partPayments : List PartPayment
deriving DecidableEq

/-- Result record of `calculateLoanDetails`. -/
structure LoanCalculation where
  emiAmount : ℚ
  totalInterest : ℚ
  totalAmount : ℚ
  remainingEmis : ℕ
  remainingPrincipal : ℚ
  nextEmiDate : SimpleDate
deriving DecidableEq

/-- `calculateEMI` (guarded version): returns 0 when `tenureMonths ≤ 0`,
`principal ≤ 0` or the monthly rate is `≤ 0`, else the annuity formula
`P·r·(1+r)^n / ((1+r)^n − 1)`. -/
def calculateEMI (principal annualRate : ℚ) (tenureMonths : ℤ) : ℚ :=
  let monthlyRate := annualRate / 100 / 12
  if tenureMonths ≤ 0 ∨ principal ≤ 0 ∨ monthlyRate ≤ 0 then 0
  else
    let compound := (1 + monthlyRate) ^ tenureMonths.toNat
    principal * monthlyRate * compound / (compound - 1)

/-- `getSelectedEmi`: the custom EMI when enabled and positive, else the
formula EMI from the ORIGINAL principal/rate/tenure. -/
def getSelectedEmi (l : Loan) : ℚ :=
  match l.customEmi with
  | some c =>
      if l.useCustomEmi ∧ 0 < c then c
      else calculateEMI l.principalAmount l.interestRate (l.tenure : ℤ)
  | none => calculateEMI l.principalAmount l.interestRate (l.tenure : ℤ)

/-- `getEmisPaid`: number of scheduled payments fallen due on the fixed
5th-of-month schedule, clamped to `[0, tenure]`. -/
def getEmisPaid (l : Loan) (today : SimpleDate) : ℕ :=
  let firstDueBase : SimpleDate := ⟨l.startDate.mIdx, 5⟩
  let firstDue := if 5 < l.startDate.day then addMonthsD firstDueBase 1 else firstDueBase
  if dateLt today firstDue then 0
  else
    let lastPaidAnchor : SimpleDate :=
      if 5 ≤ today.day then ⟨today.mIdx, 5⟩ else ⟨today.mIdx - 1, 5⟩
    let monthsBetween : ℤ := lastPaidAnchor.mIdx - firstDue.mIdx
    (intMax 0 (intMin (monthsBetween + 1) (l.tenure : ℤ))).toNat

/-- The fast-forward loop of `calculateLoanDetails`: reduce the balance by
the principal portion of each already-paid EMI, stopping on the
underpayment guard.  The fuel argument is the number of remaining
iterations (`emisPaid` at the initial call). -/
def fwdBalance (emi mr : ℚ) : ℚ → ℕ → ℚ
  | rp, 0 => rp
  | rp, n + 1 =>
      if 0 < rp ∧ 0 < emi then
        let pp := mathMax 0 (emi - rp * mr)
        if pp ≤ 0 then rp else fwdBalance emi mr (mathMax 0 (rp - pp)) n
      else rp

/-- The future-interest summation loop shared by `calculateLoanDetails` and
`calculatePartPaymentSavings`: each month adds `balance · monthlyRate`,
reduces the balance, and stops after the addition when the payment no
longer covers the interest. -/
def interestSum (emi mr : ℚ) : ℚ → ℕ → ℚ
  | _, 0 => 0
  | rp, n + 1 =>
      if 0 < rp then
        let interest := rp * mr
        let pp := mathMax 0 (emi - interest)
        if pp ≤ 0 then interest
        else interest + interestSum emi mr (mathMax 0 (rp - pp)) n
      else 0

/-- `calculateLoanDetails`, the loan detail resolver, with `new Date()`
threaded as `today`. -/
def calculateLoanDetails (l : Loan) (today : SimpleDate) : LoanCalculation :=
  let emisPaid := getEmisPaid l today
  let remainingEmis := l.tenure - emisPaid
  let mr := l.interestRate / 100 / 12
  let selectedEmi := getSelectedEmi l
  let rp := fwdBalance selectedEmi mr (mathMax 0 l.currentPrincipal) emisPaid
  let nextEmiDate : SimpleDate :=
    if 5 ≤ today.day then ⟨today.mIdx + 1, 5⟩ else ⟨today.mIdx, 5⟩
  let totalInterest :=
    if 0 < rp ∧ 0 < selectedEmi ∧ 0 < remainingEmis then
      interestSum selectedEmi mr rp remainingEmis
    else 0
  { emiAmount := selectedEmi
    totalInterest := mathMax 0 totalInterest
    totalAmount := mathMax 0 (rp + totalInterest)
    remainingEmis := remainingEmis
    remainingPrincipal := mathMax 0 rp
    nextEmiDate := nextEmiDate }

/-- A financial suggestion record (the `type` field is named `stype`). -/
structure FinancialSuggestion where
  id : String
  stype : String
  title : String
  description : String
  priority : String
  potentialSavings : Option ℚ
  loanId : Option String
deriving DecidableEq

/-- `calculatePartPaymentSavings`: estimated interest saved by an extra
payment of `partPaymentAmount` today.  Note that the source calls
`getSelectedEmi(loan, newPrincipal, currentDetails.remainingEmis)` but
`getSelectedEmi` only takes the loan, so the extra arguments are ignored
and the simulation keeps the loan's own selected EMI. -/
def calculatePartPaymentSavings (l : Loan) (partPaymentAmount : ℚ)
    (today : SimpleDate) : ℚ :=
  let currentDetails := calculateLoanDetails l today
  if currentDetails.remainingPrincipal ≤ partPaymentAmount then
    currentDetails.totalInterest
  else
    let newPrincipal := currentDetails.remainingPrincipal - partPaymentAmount
    let newEMI := getSelectedEmi l
    let mr := l.interestRate / 100 / 12
    let newTotalInterest := interestSum newEMI mr newPrincipal currentDetails.remainingEmis
    mathMax 0 (currentDetails.totalInterest - newTotalInterest)

/-- One fold step computing the head of the stable descending sort by
interest rate (`[...activeLoans].sort((a, b) => b.interestRate -
a.interestRate)[0]`; the sort is stable, so ties keep their original
order and the strict comparison keeps the earliest maximum). -/
def maxRateStep (acc : Option Loan) (l : Loan) : Option Loan :=
  match acc with
  | none => some l
  | some b => if b.interestRate < l.interestRate then some l else some b

/-- Head of the stable descending sort by interest rate (continued): the
fold keeps the earliest loan among rate ties, matching a stable sort. -/
def headMaxRate (loans : List Loan) : Option Loan :=
  loans.foldl maxRateStep none

/-- The part-payment suggestion pushed for the highest-rate active loan. -/
def partPaymentSuggestion (l : Loan) (savings : ℚ) : FinancialSuggestion :=
  { id := "part-payment-" ++ l.id
    stype := "part_payment"
    title := "Consider Part Payment for " ++ l.name
    description := "Making a part payment on your highest interest loan (" ++
      toString l.interestRate ++ "% p.a.) can save significant interest."
    priority := "high"
    potentialSavings := some savings
    loanId := some l.id }

/-- The singleton short-term high-rate suggestion. -/
def shortTermSuggestion : FinancialSuggestion :=
  { id := "focus-short-term"
    stype := "general"
    title := "Focus on Short-term High-rate Loans"
    description := "Consider paying off loans with less than 2 years remaining and high interest rates first."
    priority := "medium"
    potentialSavings := none
    loanId := none }

/-- The static emergency-fund reminder. -/
def emergencyFundSuggestion : FinancialSuggestion :=
  { id := "emergency-fund"
    stype := "savings"
    title := "Maintain Emergency Fund"
    description := "Ensure you have 6-12 months of expenses saved before aggressive debt repayment."
    priority := "high"
    potentialSavings := none
    loanId := none }

/-- `generateSuggestions`: the rule engine over the portfolio.  Note the
early return of the EMPTY list when there is no active loan. -/
def generateSuggestions (loans : List Loan) (today : SimpleDate) :
    List FinancialSuggestion :=
  let activeLoans := loans.filter (·.isActive)
  if activeLoans.isEmpty then []
  else
    let s1 : List FinancialSuggestion :=
      match headMaxRate activeLoans with
      | none => []
      | some highestRateLoan =>
          let details := calculateLoanDetails highestRateLoan today
          if 12 < details.remainingEmis then
            [partPaymentSuggestion highestRateLoan
              (calculatePartPaymentSavings highestRateLoan 50000 today)]
          else []
    let shortTermHighRate := activeLoans.filter (fun l =>
      decide ((calculateLoanDetails l today).remainingEmis ≤ 24) &&
        decide (8 < l.interestRate))
    let s2 : List FinancialSuggestion :=
      if shortTermHighRate.isEmpty then [] else [shortTermSuggestion]
    s1 ++ s2 ++ [emergencyFundSuggestion]

/-- One row of a per-loan monthly projection. -/
structure ProjEntry where
  month : ℕ
  principalPayment : ℚ
  interestPayment : ℚ
  remainingPrincipal : ℚ
deriving DecidableEq

/-- The projection loop of `calculateLoanProjection`: each month records
the payment split and the post-payment balance, breaking after the push
once the balance reaches 0.  Fuel is `min(remainingEmis, 60)`. -/
def projLoop (emi mr : ℚ) : ℚ → ℕ → ℕ → List ProjEntry
  | _, _, 0 => []
  | rp, month, fuel + 1 =>
      let interestPayment := rp * mr
      let principalPayment := mathMax 0 (emi - interestPayment)
      let rp' := mathMax 0 (rp - principalPayment)
      let entry : ProjEntry := ⟨month, principalPayment, interestPayment, rp'⟩
      if rp' ≤ 0 then [entry] else entry :: projLoop emi mr rp' (month + 1) fuel

/-- `calculateLoanProjection`: up to `min(remainingEmis, 60)` months of
projected payments starting from the resolved remaining principal. -/
def calculateLoanProjection (l : Loan) (today : SimpleDate) : List ProjEntry :=
  let details := calculateLoanDetails l today
  let mr := l.interestRate / 100 / 12
  projLoop details.emiAmount mr details.remainingPrincipal 1
    (min details.remainingEmis 60)

/-- `projection.find(p => p.month === month)`. -/
def findMonth (proj : List ProjEntry) (m : ℕ) : Option ProjEntry :=
  proj.find? (fun e => e.month = m)

/-- One row of the combined projection. -/
structure CombEntry where
  month : ℕ
  totalPrincipalPayment : ℚ
  totalInterestPayment : ℚ
  totalRemainingPrincipal : ℚ
deriving DecidableEq

/-- The month loop of `getCombinedLoanProjection` over the (pure, hence
hoisted) per-loan projections: totals are summed from each projection's
entry for the month, and the loop breaks BEFORE pushing once the total
remaining balance is 0 and the month is past 1. -/
def combLoop (projs : List (List ProjEntry)) : ℕ → ℕ → List CombEntry
  | _, 0 => []
  | month, fuel + 1 =>
      let totalPrincipalPayment :=
        (projs.map (fun p => ((findMonth p month).map (·.principalPayment)).getD 0)).sum
      let totalInterestPayment :=
        (projs.map (fun p => ((findMonth p month).map (·.interestPayment)).getD 0)).sum
      let totalRemainingPrincipal :=
        (projs.map (fun p => ((findMonth p month).map (·.remainingPrincipal)).getD 0)).sum
      if totalRemainingPrincipal ≤ 0 ∧ 1 < month then []
      else
        ⟨month, totalPrincipalPayment, totalInterestPayment, totalRemainingPrincipal⟩ ::
          combLoop projs (month + 1) fuel

/-- `getCombinedLoanProjection`: months 1..60 of summed projections over
the active loans. -/
def getCombinedLoanProjection (loans : List Loan) (today : SimpleDate) :
    List CombEntry :=
  let activeLoans := loans.filter (·.isActive)
  combLoop (activeLoans.map (fun l => calculateLoanProjection l today)) 1 60

/-- The reverse-sizing while-loop of `computeRemainingEmis`: counts months
until the balance reaches 0; `fuel = safetyCap − months` realizes the
`months < safetyCap` test; a payment that does not cover interest resets
the count to 0 and stops. -/
def remLoop (emi mr : ℚ) : ℚ → ℕ → ℕ → ℕ
  | _, months, 0 => months
  | rp, months, fuel + 1 =>
      if 0 < rp then
        let interest := rp * mr
        let principalPay := mathMax 0 (emi - interest)
        if principalPay ≤ 0 then 0
        else remLoop emi mr (mathMax 0 (rp - principalPay)) (months + 1) fuel
      else months

/-- `computeRemainingEmis` of `LoanForm.tsx`: reverse-size the number of
months needed to amortize `outstanding` at `emi`, capped at 1200. -/
def computeRemainingEmis (outstanding emi annualRate : ℚ) : ℕ :=
  let monthlyRate := annualRate / 100 / 12
  if outstanding ≤ 0 ∨ emi ≤ 0 ∨ monthlyRate < 0 then 0
  else remLoop emi monthlyRate outstanding 0 1200

/-- Modelled from the spec: `simulateRemainingEmis` is imported by
`useFinance.ts` from the calculations module but its definition is not in
the provided sources.  §4.3 of the spec specifies the reverse-sizer as
"the same step function counting months until balance reaches 0, capped at
a safety bound (1200 months)… returns 0 if the loan can never amortize",
which is exactly the algorithm of `computeRemainingEmis`. -/
def simulateRemainingEmis (outstanding emi annualRate : ℚ) : ℕ :=
  computeRemainingEmis outstanding emi annualRate

/-- The baseline used by `addPartPayment`:
`Number(details.remainingPrincipal) || Number(loan.currentPrincipal) || 0`
(a JavaScript falsy chain). -/
def partPaymentBaseline (l : Loan) (today : SimpleDate) : ℚ :=
  let details := calculateLoanDetails l today
  if details.remainingPrincipal ≠ 0 then details.remainingPrincipal
  else if l.currentPrincipal ≠ 0 then l.currentPrincipal
  else 0

/-- The per-loan body of `addPartPayment`: append the payment and rebase
`currentPrincipal` to the amortized outstanding minus the amount, floored
at 0. -/
def addPartPaymentLoan (l : Loan) (pp : PartPayment) (today : SimpleDate) : Loan :=
  { l with
    partPayments := l.partPayments ++ [pp]
    currentPrincipal := mathMax 0 (partPaymentBaseline l today - pp.amount) }

/-- The per-loan body of `removeLastPartPayment`: drop the last entry and
restore its amount, capped at `principalAmount`; a loan with no part
payments is returned unchanged. -/
def removeLastPartPaymentLoan (l : Loan) : Loan :=
  match l.partPayments.getLast? with
  | none => l
  | some last =>
      { l with
        partPayments := l.partPayments.dropLast
        currentPrincipal := mathMin (l.currentPrincipal + last.amount) l.principalAmount }

/-- List-level `addPartPayment`. -/
def addPartPayment (loans : List Loan) (loanId : String) (pp : PartPayment)
    (today : SimpleDate) : List Loan :=
  loans.map (fun l => if l.id = loanId then addPartPaymentLoan l pp today else l)

/-- List-level `removeLastPartPayment`. -/
def removeLastPartPayment (loans : List Loan) (loanId : String) : List Loan :=
  loans.map (fun l => if l.id = loanId then removeLastPartPaymentLoan l else l)

/-- A partial loan edit (`Partial<Loan>` restricted to the fields the
update path writes; `none` means "key absent"). -/
structure LoanUpdates where
  name : Option String := none
  principalAmount : Option ℚ := none
  currentPrincipal : Option ℚ := none
  interestRate : Option ℚ := none
  tenure : Option ℕ := none
  emiAmount : Option ℚ := none
  useCustomEmi : Option Bool := none
  customEmi : Option ℚ := none
  startDate : Option SimpleDate := none
  isActive : Option Bool := none
deriving DecidableEq

/-- The per-loan body of `updateLoan`: merge the edits, normalize, resolve
the selected EMI through the precedence chain of the source, and
reverse-size the tenure. -/
def updateLoanFields (l : Loan) (u : LoanUpdates) : Loan :=
  let pa := u.principalAmount.getD l.principalAmount
  let cp0 := u.currentPrincipal.getD l.currentPrincipal
  let ir := u.interestRate.getD l.interestRate
  let tn := u.tenure.getD l.tenure
  let emi0 := u.emiAmount.getD l.emiAmount
  let uce := u.useCustomEmi.getD l.useCustomEmi
  let ce : Option ℚ :=
    match u.customEmi with
    | some c => some c
    | none => l.customEmi
  -- principal edited without an explicit outstanding:
  -- `merged.currentPrincipal = Number(updates.principalAmount) || merged.currentPrincipal || 0`
  let cp :=
    if u.principalAmount.isSome ∧ u.currentPrincipal = none then
      if u.principalAmount.getD 0 ≠ 0 then u.principalAmount.getD 0
      else if cp0 ≠ 0 then cp0 else 0
    else cp0
  let editedEmi := u.emiAmount.isSome ∨ u.customEmi.isSome ∨ u.useCustomEmi.isSome
  let editedRate := u.interestRate.isSome
  let editedTenure := u.tenure.isSome
  -- first selection pass
  let sel1 : ℚ :=
    if uce then
      match ce with
      | some c => if 0 < c then c else if 0 < emi0 then emi0 else 0
      | none => if 0 < emi0 then emi0 else 0
    else if editedEmi ∧ 0 < emi0 then emi0 else 0
  let principalForCalc := if cp ≠ 0 then cp else if pa ≠ 0 then pa else 0
  let annualRate := ir
  -- formula recomputation when not in custom mode
  let sel2 :=
    if ¬uce ∧ (editedRate ∨ editedTenure ∨ (sel1 = 0 ∧ 0 < tn)) ∧ 0 < tn then
      calculateEMI principalForCalc annualRate (tn : ℤ)
    else sel1
  -- fall back to the merged EMI field
  let sel3 := if sel2 = 0 ∧ 0 < emi0 then emi0 else sel2
  -- explicit EMI edits override everything
  let sel4 :=
    if editedEmi then
      match ce with
      | some c => if uce ∧ c ≠ 0 then c else if emi0 ≠ 0 then emi0 else sel3
      | none => if emi0 ≠ 0 then emi0 else sel3
    else sel3
  let ceFinal : Option ℚ :=
    match ce with
    | some c => if uce ∧ c ≠ 0 then some c else none
    | none => none
  let remaining := simulateRemainingEmis principalForCalc sel4 annualRate
  let tnFinal := if 0 < remaining then remaining else tn
  { l with
    name := u.name.getD l.name
    principalAmount := pa
    currentPrincipal := cp
    interestRate := ir
    tenure := tnFinal
    emiAmount := sel4
    useCustomEmi := uce
    customEmi := ceFinal
    startDate := u.startDate.getD l.startDate
    isActive := u.isActive.getD l.isActive }

/-- List-level `updateLoan`. -/
def updateLoan (loans : List Loan) (loanId : String) (u : LoanUpdates) : List Loan :=
  loans.map (fun l => if l.id = loanId then updateLoanFields l u else l)

/-! ## Shared helper lemmas -/

/-- The clamped payment count never exceeds the tenure. -/
theorem getEmisPaid_le_tenure (l : Loan) (today : SimpleDate) :
    getEmisPaid l today ≤ l.tenure := by
  unfold getEmisPaid
  dsimp only [addMonthsD]
  simp only [intMax_eq, intMin_eq]
  split
  · split
    · exact Nat.zero_le _
    · split <;> omega
  · split
    · exact Nat.zero_le _
    · split <;> omega

/-- The reverse-sizing loop cannot exceed its fuel plus the running count. -/
theorem remLoop_le (emi mr : ℚ) :
    ∀ fuel rp months, remLoop emi mr rp months fuel ≤ months + fuel := by
  intro fuel
  induction fuel with
  | zero => intro rp months; simp [remLoop]
  | succ f ih =>
      intro rp months
      simp only [remLoop]
      split
      · split
        · exact Nat.zero_le _
        · calc remLoop emi mr _ (months + 1) f ≤ months + 1 + f := ih _ _
            _ = months + (f + 1) := by omega
      · omega

/-- Once the reverse-sizing loop has counted a month and the payment covers
the interest, the final count stays positive. -/
theorem remLoop_pos (emi mr : ℚ) (hmr : 0 ≤ mr) :
    ∀ fuel rp months, rp * mr < emi → 1 ≤ months →
      1 ≤ remLoop emi mr rp months fuel := by
  intro fuel
  induction fuel with
  | zero => intro rp months _ hm; simpa [remLoop] using hm
  | succ f ih =>
      intro rp months hlt hm
      simp only [remLoop]
      simp only [mathMax_eq]
      split
      · rename_i hrp
        have hpp : max 0 (emi - rp * mr) = emi - rp * mr :=
          max_eq_right (by linarith)
        rw [hpp]
        rw [if_neg (by linarith)]
        apply ih
        · have h1 : max 0 (rp - (emi - rp * mr)) ≤ rp := by
            apply max_le (le_of_lt hrp); linarith
          calc max 0 (rp - (emi - rp * mr)) * mr ≤ rp * mr :=
                mul_le_mul_of_nonneg_right h1 hmr
            _ < emi := hlt
        · omega
      · exact hm

/-! ## C2: contract of the EMI formula -/

/-- C2: `calculateEMI` returns 0 whenever `tenureMonths ≤ 0`,
`principal ≤ 0` or the monthly rate is `≤ 0`; otherwise the denominator
`(1+r)^n − 1` is nonzero (no division degeneracy), the result is the
annuity formula `P·r·(1+r)^n / ((1+r)^n − 1)`, and it is positive.  The
function is total, so it raises no exception on any input. -/
theorem calculateEMI_contract (p r : ℚ) (n : ℤ) :
    (n ≤ 0 ∨ p ≤ 0 ∨ r / 100 / 12 ≤ 0 → calculateEMI p r n = 0) ∧
    (0 < n → 0 < p → 0 < r / 100 / 12 →
      (1 + r / 100 / 12) ^ n.toNat - 1 ≠ 0 ∧
      calculateEMI p r n =
        p * (r / 100 / 12) * (1 + r / 100 / 12) ^ n.toNat /
          ((1 + r / 100 / 12) ^ n.toNat - 1) ∧
      0 < calculateEMI p r n) := by
  constructor
  · intro h
    simp only [calculateEMI]
    rw [if_pos h]
  · intro hn hp hr
    have hguard : ¬(n ≤ 0 ∨ p ≤ 0 ∨ r / 100 / 12 ≤ 0) := by
      push_neg
      exact ⟨hn, hp, hr⟩
    have hnn : n.toNat ≠ 0 := by omega
    have hcomp : 1 < (1 + r / 100 / 12) ^ n.toNat :=
      one_lt_pow₀ (by linarith) hnn
    have hden : (0 : ℚ) < (1 + r / 100 / 12) ^ n.toNat - 1 := by linarith
    refine ⟨ne_of_gt hden, ?_, ?_⟩
    · simp only [calculateEMI]
      rw [if_neg hguard]
    · simp only [calculateEMI]
      rw [if_neg hguard]
      refine div_pos ?_ hden
      have hcpos : (0 : ℚ) < (1 + r / 100 / 12) ^ n.toNat := by linarith
      exact mul_pos (mul_pos hp hr) hcpos

/-- Witness for C2 at principal 1000, rate 12, tenure 1 month. -/
theorem calculateEMI_contract_witness :
    (0 : ℤ) < 1 ∧
      ((1 + (12 : ℚ) / 100 / 12) ^ (1 : ℤ).toNat - 1 ≠ 0 ∧
        calculateEMI 1000 12 1 =
          1000 * ((12 : ℚ) / 100 / 12) * (1 + (12 : ℚ) / 100 / 12) ^ (1 : ℤ).toNat /
            ((1 + (12 : ℚ) / 100 / 12) ^ (1 : ℤ).toNat - 1) ∧
        0 < calculateEMI 1000 12 1) :=
  ⟨by norm_num,
    (calculateEMI_contract 1000 12 1).2 (by norm_num) (by norm_num) (by norm_num)⟩

/-! ## C3: the payment-count oracle -/

/-- C3: `getEmisPaid` follows the fixed 5th-of-month schedule: the first
due date is the 5th of the start month when `startDate.day ≤ 5` and the
5th of the following month otherwise; the result is 0 when `today` is
strictly before that first due date, and otherwise is the number of
calendar months from the first due date to the most recent due anchor on
or before `today` (the 5th of the current month if `today.day ≥ 5`, else
the 5th of the previous month) plus 1, clamped to `[0, tenure]`. -/
theorem getEmisPaid_schedule (l : Loan) (today : SimpleDate) :
    (dateLt today (if l.startDate.day ≤ 5 then (⟨l.startDate.mIdx, 5⟩ : SimpleDate)
        else ⟨l.startDate.mIdx + 1, 5⟩) = true →
      getEmisPaid l today = 0) ∧
    (dateLt today (if l.startDate.day ≤ 5 then (⟨l.startDate.mIdx, 5⟩ : SimpleDate)
        else ⟨l.startDate.mIdx + 1, 5⟩) = false →
      (getEmisPaid l today : ℤ) =
        max 0 (min ((if 5 ≤ today.day then today.mIdx else today.mIdx - 1) -
          (if l.startDate.day ≤ 5 then l.startDate.mIdx else l.startDate.mIdx + 1) + 1)
          (l.tenure : ℤ))) ∧
    getEmisPaid l today ≤ l.tenure := by
  refine ⟨?_, ?_, getEmisPaid_le_tenure l today⟩
  · intro h
    unfold getEmisPaid
    dsimp only [addMonthsD]
    by_cases hd : l.startDate.day ≤ 5
    · rw [if_pos hd] at h
      rw [if_neg (show ¬ 5 < l.startDate.day by omega), if_pos h]
    · rw [if_neg hd] at h
      rw [if_pos (show 5 < l.startDate.day by omega), if_pos h]
  · intro h
    unfold getEmisPaid
    dsimp only [addMonthsD]
    simp only [intMax_eq, intMin_eq]
    by_cases hd : l.startDate.day ≤ 5
    · rw [if_pos hd] at h
      rw [if_neg (show ¬ 5 < l.startDate.day by omega),
        if_neg (show ¬ dateLt today (⟨l.startDate.mIdx, 5⟩ : SimpleDate) = true by simp [h]),
        if_pos hd]
      by_cases ht : 5 ≤ today.day
      · simp only [if_pos ht]
        omega
      · simp only [if_neg ht]
        omega
    · rw [if_neg hd] at h
      rw [if_pos (show 5 < l.startDate.day by omega),
        if_neg (show ¬ dateLt today (⟨l.startDate.mIdx + 1, 5⟩ : SimpleDate) = true by simp [h]),
        if_neg hd]
      by_cases ht : 5 ≤ today.day
      · simp only [if_pos ht]
        omega
      · simp only [if_neg ht]
        omega

/-- Concrete loan for the C3 witness: started on the 1st three months
before a `today` on the 10th. -/
def wC3loan : Loan :=
  { id := "c3", name := "C3", principalAmount := 100000, currentPrincipal := 100000,
    interestRate := 9, tenure := 12, emiAmount := 9000, useCustomEmi := false,
    customEmi := none, startDate := ⟨24300, 1⟩, isActive := true, partPayments := [] }

/-- Today for the C3 witness: the 10th of the third month. -/
def wC3today : SimpleDate := ⟨24302, 10⟩

/-- Witness for C3: three payments have fallen due. -/
theorem getEmisPaid_schedule_witness : getEmisPaid wC3loan wC3today = 3 := by
  have h := (getEmisPaid_schedule wC3loan wC3today).2.1 (by decide)
  simp only [wC3loan, wC3today] at h
  norm_num at h
  exact_mod_cast h

/-! ## C6: derived-state invariants of the resolver -/

/-- C6: for every loan and `today`, the resolver output satisfies
`remainingPrincipal ≥ 0`, `remainingEmis ∈ [0, tenure]` (a natural
number), `emisPaid + remainingEmis = tenure` with the clamped payment
count, and `totalInterest, totalAmount ≥ 0`. -/
theorem calculateLoanDetails_invariants (l : Loan) (today : SimpleDate) :
    0 ≤ (calculateLoanDetails l today).remainingPrincipal ∧
    (calculateLoanDetails l today).remainingEmis ≤ l.tenure ∧
    getEmisPaid l today + (calculateLoanDetails l today).remainingEmis = l.tenure ∧
    0 ≤ (calculateLoanDetails l today).totalInterest ∧
    0 ≤ (calculateLoanDetails l today).totalAmount := by
  have hle := getEmisPaid_le_tenure l today
  unfold calculateLoanDetails
  dsimp only
  simp only [mathMax_eq]
  exact ⟨le_max_left _ _, Nat.sub_le _ _, by omega, le_max_left _ _, le_max_left _ _⟩

/-! ## C4: the reverse-sizer's termination and cannot-amortize signal -/

/-- One-step unfolding of the reverse-sizing loop. -/
theorem remLoop_succ (emi mr rp : ℚ) (months fuel : ℕ) :
    remLoop emi mr rp months (fuel + 1) =
      if 0 < rp then
        if mathMax 0 (emi - rp * mr) ≤ 0 then 0
        else remLoop emi mr (mathMax 0 (rp - mathMax 0 (emi - rp * mr))) (months + 1) fuel
      else months := rfl

/-- C4: for `outstanding > 0`, `emi > 0`, `rate ≥ 0`,
`computeRemainingEmis` stays within the 1200-month safety cap (and, being
a total function into `ℕ`, never crashes and never returns a negative
count), and returns 0 exactly when the payment does not exceed the first
month's interest `outstanding · rate/100/12`. -/
theorem computeRemainingEmis_contract (o e r : ℚ)
    (ho : 0 < o) (he : 0 < e) (hr : 0 ≤ r) :
    computeRemainingEmis o e r ≤ 1200 ∧
    (computeRemainingEmis o e r = 0 ↔ e ≤ o * (r / 100 / 12)) := by
  have hmr : (0 : ℚ) ≤ r / 100 / 12 := by positivity
  have hguard : ¬(o ≤ 0 ∨ e ≤ 0 ∨ r / 100 / 12 < 0) := by
    push_neg
    exact ⟨ho, he, hmr⟩
  unfold computeRemainingEmis
  dsimp only
  rw [if_neg hguard]
  refine ⟨le_trans (remLoop_le _ _ _ _ _) (by omega), ?_, ?_⟩
  · intro h0
    by_contra hgt
    push_neg at hgt
    rw [show (1200 : ℕ) = 1199 + 1 from rfl, remLoop_succ] at h0
    simp only [mathMax_eq] at h0
    rw [if_pos ho] at h0
    have hpp : max 0 (e - o * (r / 100 / 12)) = e - o * (r / 100 / 12) :=
      max_eq_right (by linarith)
    rw [hpp, if_neg (by linarith)] at h0
    have hnext : max 0 (o - (e - o * (r / 100 / 12))) * (r / 100 / 12) < e := by
      have h1 : max 0 (o - (e - o * (r / 100 / 12))) ≤ o :=
        max_le (le_of_lt ho) (by linarith)
      calc max 0 (o - (e - o * (r / 100 / 12))) * (r / 100 / 12)
          ≤ o * (r / 100 / 12) := mul_le_mul_of_nonneg_right h1 hmr
        _ < e := hgt
    have h1 := remLoop_pos e (r / 100 / 12) hmr 1199 _ 1 hnext le_rfl
    rw [h0] at h1
    omega
  · intro hle
    rw [show (1200 : ℕ) = 1199 + 1 from rfl, remLoop_succ]
    simp only [mathMax_eq]
    rw [if_pos ho]
    rw [if_pos (show max 0 (e - o * (r / 100 / 12)) ≤ 0 from
      le_of_eq (max_eq_left (by linarith)))]

/-- Witness for C4: a 1000-unit balance at 12% with a 5-unit payment
cannot amortize (monthly interest is 10). -/
theorem computeRemainingEmis_contract_witness :
    (0 : ℚ) < 1000 ∧
      (computeRemainingEmis 1000 5 12 ≤ 1200 ∧
        (computeRemainingEmis 1000 5 12 = 0 ↔ (5 : ℚ) ≤ 1000 * (12 / 100 / 12))) :=
  ⟨by norm_num,
    computeRemainingEmis_contract 1000 5 12 (by norm_num) (by norm_num) (by norm_num)⟩

/-! ## C1: part-payment round trip -/

/-- Un-flooring an add-then-subtract: `max 0 (b − X) + X = max X b`. -/
theorem max_zero_sub_add (b X : ℚ) : max 0 (b - X) + X = max X b := by
  rcases le_total b X with h | h
  · rw [max_eq_left (by linarith), max_eq_left h, zero_add]
  · rw [max_eq_right (by linarith), max_eq_right h]
    ring

/-- C1 (amended): `addPartPayment` then `removeLastPartPayment` removes the
appended entry (last-in-first-out) and sets `currentPrincipal` to
`min(max(baseline, X), principalAmount)`, where the baseline is the
resolver's live `remainingPrincipal` at payment time (falling back to the
stored `currentPrincipal` when that resolves to 0) — NOT the stored value
immediately before the payment. -/
theorem partPayment_roundTrip (l : Loan) (pp : PartPayment) (today : SimpleDate)
    (hX : 0 < pp.amount) :
    removeLastPartPaymentLoan (addPartPaymentLoan l pp today) =
      { l with
        currentPrincipal := min (max pp.amount (partPaymentBaseline l today)) l.principalAmount } := by
  clear hX
  unfold removeLastPartPaymentLoan addPartPaymentLoan
  dsimp only
  rw [List.getLast?_concat]
  dsimp only
  simp only [mathMax_eq, mathMin_eq]
  rw [List.dropLast_concat, max_zero_sub_add]

/-- Loan for the C1 counterexample and witness: one EMI has already fallen
due, so the resolver's live balance (910) differs from the stored
`currentPrincipal` (1000). -/
def wC1loan : Loan :=
  { id := "c1", name := "C1", principalAmount := 1000, currentPrincipal := 1000,
    interestRate := 12, tenure := 12, emiAmount := 100, useCustomEmi := true,
    customEmi := some 100, startDate := ⟨24300, 1⟩, isActive := true, partPayments := [] }

/-- Part payment of 100 for the C1 counterexample. -/
def wC1pp : PartPayment := ⟨"pp1", 100, ⟨24300, 5⟩, "extra"⟩

/-- Today for the C1 counterexample: the first due date itself. -/
def wC1today : SimpleDate := ⟨24300, 5⟩

/-- C1 counterexample: the pre-payment stored `currentPrincipal` is 1000
(within the `principalAmount` cap), yet after add-then-remove the stored
value is 910 — the resolver's amortized baseline — so the round trip does
not restore the pre-payment value. -/
theorem partPayment_roundTrip_counterexample :
    0 < wC1pp.amount ∧
    wC1loan.currentPrincipal = 1000 ∧
    wC1loan.principalAmount = 1000 ∧
    (removeLastPartPaymentLoan (addPartPaymentLoan wC1loan wC1pp wC1today)).currentPrincipal = 910 := by
  refine ⟨by decide, by decide, by decide, ?_⟩
  norm_num [removeLastPartPaymentLoan, addPartPaymentLoan, partPaymentBaseline, wC1pp,
    calculateLoanDetails, wC1loan, wC1today, getEmisPaid, getSelectedEmi, dateLt,
    addMonthsD, intMax, intMin, fwdBalance, interestSum, mathMax, mathMin, calculateEMI]

/-- Witness for C1's amended round-trip law at the concrete loan. -/
theorem partPayment_roundTrip_witness :
    0 < wC1pp.amount ∧
      removeLastPartPaymentLoan (addPartPaymentLoan wC1loan wC1pp wC1today) =
        { wC1loan with
          currentPrincipal := min (max wC1pp.amount (partPaymentBaseline wC1loan wC1today)) wC1loan.principalAmount } :=
  ⟨by decide, partPayment_roundTrip wC1loan wC1pp wC1today (by decide)⟩

/-! ## C10: frame property of the three loan operations -/

/-- C10: `updateLoan`, `addPartPayment` and `removeLastPartPayment`
preserve the collection's length and ordering and leave every loan whose
id differs from the target unchanged in place; `removeLastPartPayment`
also leaves a loan with no part payments unchanged even when targeted. -/
theorem loanOps_frame (loans : List Loan) (loanId : String) (u : LoanUpdates)
    (pp : PartPayment) (today : SimpleDate) :
    (updateLoan loans loanId u).length = loans.length ∧
    (addPartPayment loans loanId pp today).length = loans.length ∧
    (removeLastPartPayment loans loanId).length = loans.length ∧
    (∀ i : ℕ, ∀ l : Loan, loans[i]? = some l → l.id ≠ loanId →
      (updateLoan loans loanId u)[i]? = some l ∧
      (addPartPayment loans loanId pp today)[i]? = some l ∧
      (removeLastPartPayment loans loanId)[i]? = some l) ∧
    (∀ i : ℕ, ∀ l : Loan, loans[i]? = some l → l.partPayments = [] →
      (removeLastPartPayment loans loanId)[i]? = some l) := by
  refine ⟨List.length_map _ _, List.length_map _ _, List.length_map _ _, ?_, ?_⟩
  · intro i l hi hne
    unfold updateLoan addPartPayment removeLastPartPayment
    simp [List.getElem?_map, hi, if_neg hne]
  · intro i l hi hemp
    unfold removeLastPartPayment
    simp only [List.getElem?_map, hi, Option.map_some']
    by_cases h : l.id = loanId
    · simp [h, removeLastPartPaymentLoan, hemp]
    · simp [h]

/-- First loan for the C10 witness. -/
def wFrameA : Loan :=
  { id := "fa", name := "FA", principalAmount := 500, currentPrincipal := 500,
    interestRate := 10, tenure := 6, emiAmount := 90, useCustomEmi := false,
    customEmi := none, startDate := ⟨24300, 1⟩, isActive := true, partPayments := [] }

/-- Second loan (the update target) for the C10 witness. -/
def wFrameB : Loan :=
  { id := "fb", name := "FB", principalAmount := 700, currentPrincipal := 700,
    interestRate := 11, tenure := 8, emiAmount := 95, useCustomEmi := false,
    customEmi := none, startDate := ⟨24300, 2⟩, isActive := true, partPayments := [] }

/-- Edit payload for the C10 witness. -/
def wFrameU : LoanUpdates := { interestRate := some 9 }

/-- Part payment for the C10 witness. -/
def wFramePP : PartPayment := ⟨"fpp", 50, ⟨24301, 5⟩, "extra"⟩

/-- Today for the C10 witness. -/
def wFrameT : SimpleDate := ⟨24301, 5⟩

/-- Witness for C10: the non-target first loan is untouched by all three
operations. -/
theorem loanOps_frame_witness :
    ([wFrameA, wFrameB] : List Loan)[0]? = some wFrameA ∧ wFrameA.id ≠ "fb" ∧
      ((updateLoan [wFrameA, wFrameB] "fb" wFrameU)[0]? = some wFrameA ∧
        (addPartPayment [wFrameA, wFrameB] "fb" wFramePP wFrameT)[0]? = some wFrameA ∧
        (removeLastPartPayment [wFrameA, wFrameB] "fb")[0]? = some wFrameA) :=
  ⟨rfl, by decide,
    (loanOps_frame [wFrameA, wFrameB] "fb" wFrameU wFramePP wFrameT).2.2.2.1 0 wFrameA rfl
      (by decide)⟩

/-! ## C5: edit-time tenure reverse-sizing -/

/-- C5: after `updateLoan` finalizes the selected EMI, the stored tenure
equals the reverse-sized remaining month count computed from the merged
outstanding (`currentPrincipal || principalAmount || 0`), the final EMI
and the rate whenever that count is positive; when the reverse-sizer
returns 0 (unsizable), the merged tenure (the edit's tenure if provided,
else the loan's prior tenure) is kept instead. -/
theorem updateLoan_tenure_reverse_sized (l : Loan) (u : LoanUpdates) :
    (0 < simulateRemainingEmis
        (if (updateLoanFields l u).currentPrincipal ≠ 0 then
          (updateLoanFields l u).currentPrincipal
         else if (updateLoanFields l u).principalAmount ≠ 0 then
          (updateLoanFields l u).principalAmount
         else 0)
        (updateLoanFields l u).emiAmount (updateLoanFields l u).interestRate →
      (updateLoanFields l u).tenure =
        simulateRemainingEmis
          (if (updateLoanFields l u).currentPrincipal ≠ 0 then
            (updateLoanFields l u).currentPrincipal
           else if (updateLoanFields l u).principalAmount ≠ 0 then
            (updateLoanFields l u).principalAmount
           else 0)
          (updateLoanFields l u).emiAmount (updateLoanFields l u).interestRate) ∧
    (simulateRemainingEmis
        (if (updateLoanFields l u).currentPrincipal ≠ 0 then
          (updateLoanFields l u).currentPrincipal
         else if (updateLoanFields l u).principalAmount ≠ 0 then
          (updateLoanFields l u).principalAmount
         else 0)
        (updateLoanFields l u).emiAmount (updateLoanFields l u).interestRate = 0 →
      (updateLoanFields l u).tenure = u.tenure.getD l.tenure) := by
  unfold updateLoanFields
  dsimp only
  constructor
  · intro h
    rw [if_pos h]
  · intro h
    rw [h]
    rfl

/-- Loan for the C5 witness. -/
def wC5loan : Loan :=
  { id := "c5", name := "C5", principalAmount := 100, currentPrincipal := 100,
    interestRate := 0, tenure := 7, emiAmount := 0, useCustomEmi := false,
    customEmi := none, startDate := ⟨24300, 1⟩, isActive := true, partPayments := [] }

/-- Edit payload for the C5 witness: switch to a custom EMI of 100. -/
def wC5u : LoanUpdates := { useCustomEmi := some true, customEmi := some 100 }

/-- The reverse-sizer amortizes 100 outstanding at EMI 100, rate 0, in one
month. -/
theorem simulateRemainingEmis_c5 : simulateRemainingEmis 100 100 0 = 1 := by
  unfold simulateRemainingEmis computeRemainingEmis
  rw [if_neg (by norm_num)]
  rw [show (1200 : ℕ) = 1199 + 1 from rfl, remLoop_succ]
  rw [if_pos (by norm_num)]
  rw [if_neg (by norm_num [mathMax])]
  rw [show (1199 : ℕ) = 1198 + 1 from rfl, remLoop_succ]
  rw [if_neg (by norm_num [mathMax])]

/-- Witness for C5: the stored tenure after the edit equals the
reverse-sized count. -/
theorem updateLoan_tenure_witness :
    (updateLoanFields wC5loan wC5u).tenure =
      simulateRemainingEmis
        (if (updateLoanFields wC5loan wC5u).currentPrincipal ≠ 0 then
          (updateLoanFields wC5loan wC5u).currentPrincipal
         else if (updateLoanFields wC5loan wC5u).principalAmount ≠ 0 then
          (updateLoanFields wC5loan wC5u).principalAmount
         else 0)
        (updateLoanFields wC5loan wC5u).emiAmount
        (updateLoanFields wC5loan wC5u).interestRate := by
  have e1 : (updateLoanFields wC5loan wC5u).currentPrincipal = 100 := by
    norm_num [updateLoanFields, wC5loan, wC5u]
  have e2 : (updateLoanFields wC5loan wC5u).emiAmount = 100 := by
    norm_num [updateLoanFields, wC5loan, wC5u]
  have e3 : (updateLoanFields wC5loan wC5u).interestRate = 0 := by
    norm_num [updateLoanFields, wC5loan, wC5u]
  exact (updateLoan_tenure_reverse_sized wC5loan wC5u).1
    (by rw [e1, e2, e3]; norm_num [simulateRemainingEmis_c5])

/-! ## C7: part-payment savings estimator -/

/-- The resolver's total future interest is floored at 0. -/
theorem totalInterest_nonneg (l : Loan) (today : SimpleDate) :
    0 ≤ (calculateLoanDetails l today).totalInterest := by
  unfold calculateLoanDetails
  dsimp only
  rw [mathMax_eq]
  exact le_max_left _ _

/-- The resolver's remaining principal is floored at 0. -/
theorem remainingPrincipal_nonneg (l : Loan) (today : SimpleDate) :
    0 ≤ (calculateLoanDetails l today).remainingPrincipal := by
  unfold calculateLoanDetails
  dsimp only
  rw [mathMax_eq]
  exact le_max_left _ _

/-- The simulated interest total is nonnegative for nonnegative monthly
rates. -/
theorem interestSum_nonneg (emi mr : ℚ) (hmr : 0 ≤ mr) :
    ∀ n rp, 0 ≤ interestSum emi mr rp n := by
  intro n
  induction n with
  | zero => intro rp; simp [interestSum]
  | succ k ih =>
      intro rp
      simp only [interestSum]
      split
      · rename_i hrp
        split
        · exact mul_nonneg (le_of_lt hrp) hmr
        · exact add_nonneg (mul_nonneg (le_of_lt hrp) hmr) (ih _)
      · exact le_refl 0

/-- The simulated interest total is monotone in the starting balance as
long as the payment strictly covers the larger balance's interest (no
stuck-loan break can fire). -/
theorem interestSum_mono (emi mr : ℚ) (hmr : 0 ≤ mr) :
    ∀ n b1 b2, 0 ≤ b1 → b1 ≤ b2 → b2 * mr < emi →
      interestSum emi mr b1 n ≤ interestSum emi mr b2 n := by
  intro n
  induction n with
  | zero => intro b1 b2 _ _ _; simp [interestSum]
  | succ k ih =>
      intro b1 b2 h1 h12 hlt
      have hi12 : b1 * mr ≤ b2 * mr := mul_le_mul_of_nonneg_right h12 hmr
      simp only [interestSum]
      by_cases hb1 : 0 < b1
      · have hb2 : 0 < b2 := lt_of_lt_of_le hb1 h12
        rw [if_pos hb1, if_pos hb2]
        have hb1m : b1 * mr < emi := lt_of_le_of_lt hi12 hlt
        have hpp1 : mathMax 0 (emi - b1 * mr) = emi - b1 * mr := by
          rw [mathMax_eq]
          exact max_eq_right (by linarith)
        have hpp2 : mathMax 0 (emi - b2 * mr) = emi - b2 * mr := by
          rw [mathMax_eq]
          exact max_eq_right (by linarith)
        rw [hpp1, hpp2, if_neg (by linarith), if_neg (by linarith)]
        have hrec : interestSum emi mr (mathMax 0 (b1 - (emi - b1 * mr))) k ≤
            interestSum emi mr (mathMax 0 (b2 - (emi - b2 * mr))) k := by
          apply ih
          · rw [mathMax_eq]
            exact le_max_left _ _
          · rw [mathMax_eq, mathMax_eq]
            exact max_le_max le_rfl (by linarith)
          · have hle : mathMax 0 (b2 - (emi - b2 * mr)) ≤ b2 := by
              rw [mathMax_eq]
              exact max_le (le_of_lt hb2) (by linarith)
            calc mathMax 0 (b2 - (emi - b2 * mr)) * mr ≤ b2 * mr :=
                  mul_le_mul_of_nonneg_right hle hmr
              _ < emi := hlt
        linarith
      · rw [if_neg hb1]
        by_cases hb2 : 0 < b2
        · rw [if_pos hb2]
          split
          · exact mul_nonneg (le_of_lt hb2) hmr
          · exact add_nonneg (mul_nonneg (le_of_lt hb2) hmr)
              (interestSum_nonneg emi mr hmr _ _)
        · rw [if_neg hb2]

/-- C7 (amended): `calculatePartPaymentSavings` equals the loan's current
total future interest whenever the amount covers the resolved remaining
principal — unconditionally, for every loan; and for rates ≥ 0 on loans
whose selected EMI strictly exceeds one month's interest on the resolved
remaining principal (not "stuck"), it is non-decreasing on nonnegative
amounts.  Without the non-stuck hypothesis monotonicity fails (see the
counterexample). -/
theorem savings_monotone (l : Loan) (today : SimpleDate) :
    (∀ a : ℚ, (calculateLoanDetails l today).remainingPrincipal ≤ a →
      calculatePartPaymentSavings l a today = (calculateLoanDetails l today).totalInterest) ∧
    (∀ a1 a2 : ℚ, 0 ≤ l.interestRate →
      (calculateLoanDetails l today).remainingPrincipal * (l.interestRate / 100 / 12) <
        getSelectedEmi l →
      0 ≤ a1 → a1 ≤ a2 →
      calculatePartPaymentSavings l a1 today ≤ calculatePartPaymentSavings l a2 today) := by
  constructor
  · intro a h
    unfold calculatePartPaymentSavings
    dsimp only
    rw [if_pos h]
  · intro a1 a2 hr hemi h1 h12
    have hmr : (0 : ℚ) ≤ l.interestRate / 100 / 12 := by positivity
    have hTI := totalInterest_nonneg l today
    have hrp := remainingPrincipal_nonneg l today
    unfold calculatePartPaymentSavings
    dsimp only
    by_cases hc2 : (calculateLoanDetails l today).remainingPrincipal ≤ a2
    · rw [if_pos hc2]
      by_cases hc1 : (calculateLoanDetails l today).remainingPrincipal ≤ a1
      · rw [if_pos hc1]
      · rw [if_neg hc1, mathMax_eq]
        refine max_le hTI ?_
        have hS := interestSum_nonneg (getSelectedEmi l) (l.interestRate / 100 / 12) hmr
          (calculateLoanDetails l today).remainingEmis
          ((calculateLoanDetails l today).remainingPrincipal - a1)
        linarith
    · have hc1 : ¬ (calculateLoanDetails l today).remainingPrincipal ≤ a1 := by linarith
      rw [if_neg hc1, if_neg hc2, mathMax_eq, mathMax_eq]
      push_neg at hc2
      have hmono := interestSum_mono (getSelectedEmi l) (l.interestRate / 100 / 12) hmr
        (calculateLoanDetails l today).remainingEmis
        ((calculateLoanDetails l today).remainingPrincipal - a2)
        ((calculateLoanDetails l today).remainingPrincipal - a1)
        (by linarith) (by linarith)
        (by
          have hb : (calculateLoanDetails l today).remainingPrincipal - a1 ≤
              (calculateLoanDetails l today).remainingPrincipal := by linarith
          calc ((calculateLoanDetails l today).remainingPrincipal - a1) *
                (l.interestRate / 100 / 12) ≤
              (calculateLoanDetails l today).remainingPrincipal *
                (l.interestRate / 100 / 12) := mul_le_mul_of_nonneg_right hb hmr
            _ < getSelectedEmi l := hemi)
      exact max_le_max le_rfl (by linarith)

/-- Stuck loan for the C7 counterexample: custom EMI 10 below the monthly
interest on the resolved balance 2000 at 12% (20/month). -/
def wC7loan : Loan :=
  { id := "c7", name := "C7", principalAmount := 2000, currentPrincipal := 2000,
    interestRate := 12, tenure := 3, emiAmount := 10, useCustomEmi := true,
    customEmi := some 10, startDate := ⟨24300, 1⟩, isActive := true, partPayments := [] }

/-- Today for the C7 counterexample: before the first due date. -/
def wC7today : SimpleDate := ⟨24300, 3⟩

/-- C7 counterexample: on the stuck loan the savings estimator DECREASES
from 5 at amount 500 to 0 at amount 1001, so it is not non-decreasing in
the amount. -/
theorem savings_monotone_counterexample :
    (500 : ℚ) < 1001 ∧
    calculatePartPaymentSavings wC7loan 1001 wC7today <
      calculatePartPaymentSavings wC7loan 500 wC7today := by
  constructor
  · norm_num
  · norm_num [calculatePartPaymentSavings, calculateLoanDetails, wC7loan, wC7today,
      getEmisPaid, getSelectedEmi, dateLt, addMonthsD, intMax, intMin, fwdBalance,
      interestSum, mathMax, mathMin, calculateEMI]

/-- Healthy loan for the C7 witness: custom EMI 100, rate 0, resolved
balance 1000. -/
def wC7wloan : Loan :=
  { id := "c7w", name := "C7W", principalAmount := 1000, currentPrincipal := 1000,
    interestRate := 0, tenure := 12, emiAmount := 100, useCustomEmi := true,
    customEmi := some 100, startDate := ⟨24300, 1⟩, isActive := true, partPayments := [] }

/-- Today for the C7 witness. -/
def wC7wtoday : SimpleDate := ⟨24300, 1⟩

/-- Witness for C7: the full-clearing equality at amount 2000 and
monotonicity at amounts 100 ≤ 2000 on the concrete non-stuck loan. -/
theorem savings_monotone_witness :
    calculatePartPaymentSavings wC7wloan 2000 wC7wtoday =
      (calculateLoanDetails wC7wloan wC7wtoday).totalInterest ∧
    calculatePartPaymentSavings wC7wloan 100 wC7wtoday ≤
      calculatePartPaymentSavings wC7wloan 2000 wC7wtoday :=
  ⟨(savings_monotone wC7wloan wC7wtoday).1 2000
      (by
        norm_num [calculateLoanDetails, wC7wloan, wC7wtoday, getEmisPaid, getSelectedEmi,
          dateLt, addMonthsD, intMax, intMin, fwdBalance, interestSum, mathMax, calculateEMI]),
    (savings_monotone wC7wloan wC7wtoday).2 100 2000 (by norm_num [wC7wloan])
      (by
        norm_num [calculateLoanDetails, wC7wloan, wC7wtoday, getEmisPaid, getSelectedEmi,
          dateLt, addMonthsD, intMax, intMin, fwdBalance, interestSum, mathMax, calculateEMI])
      (by norm_num) (by norm_num)⟩

/-! ## C9: suggestion generator -/

/-- A fold with `maxRateStep` from a `some` accumulator stays `some`. -/
theorem foldl_maxRateStep_some (xs : List Loan) :
    ∀ b : Loan, ∃ hl, xs.foldl maxRateStep (some b) = some hl := by
  induction xs with
  | nil => intro b; exact ⟨b, rfl⟩
  | cons x xs ih =>
      intro b
      simp only [List.foldl_cons, maxRateStep]
      by_cases hc : b.interestRate < x.interestRate
      · rw [if_pos hc]
        exact ih x
      · rw [if_neg hc]
        exact ih b

/-- `headMaxRate` of a nonempty list yields a loan. -/
theorem headMaxRate_isSome (loans : List Loan) (h : loans ≠ []) :
    ∃ hl, headMaxRate loans = some hl := by
  cases loans with
  | nil => exact absurd rfl h
  | cons a as =>
      unfold headMaxRate
      simp only [List.foldl_cons]
      exact foldl_maxRateStep_some as a

/-- C9 (amended): for every collection with at least one ACTIVE loan, the
suggestions are exactly: the part-payment suggestion for the
highest-rate active loan when its `remainingEmis > 12`, then the
singleton short-term high-rate suggestion when some active loan has
`remainingEmis ≤ 24` and rate `> 8`, then the emergency-fund reminder —
in that insertion order with fixed priorities.  (With no active loan the
generator returns the empty list, so the reminder is NOT always present;
see the counterexample.) -/
theorem generateSuggestions_resultStructure (loans : List Loan) (today : SimpleDate)
    (h : loans.filter (fun l : Loan => l.isActive) ≠ []) :
    ∃ hl : Loan, headMaxRate (loans.filter (fun l : Loan => l.isActive)) = some hl ∧
      generateSuggestions loans today =
        (if 12 < (calculateLoanDetails hl today).remainingEmis then
          [partPaymentSuggestion hl (calculatePartPaymentSavings hl 50000 today)]
         else []) ++
        (if ∃ l ∈ loans.filter (fun l : Loan => l.isActive),
            (calculateLoanDetails l today).remainingEmis ≤ 24 ∧ 8 < l.interestRate then
          [shortTermSuggestion]
         else []) ++ [emergencyFundSuggestion] := by
  obtain ⟨hl, hhl⟩ := headMaxRate_isSome _ h
  refine ⟨hl, hhl, ?_⟩
  unfold generateSuggestions
  rw [if_neg (by simpa [List.isEmpty_iff] using h)]
  dsimp only
  rw [hhl]
  dsimp only
  congr 1
  congr 1
  by_cases hex : ∃ l ∈ loans.filter (fun l : Loan => l.isActive),
      (calculateLoanDetails l today).remainingEmis ≤ 24 ∧ 8 < l.interestRate
  · rw [if_pos hex]
    obtain ⟨l, hmem, h24, h8⟩ := hex
    have hmemf : l ∈ (loans.filter (fun l : Loan => l.isActive)).filter (fun l =>
        decide ((calculateLoanDetails l today).remainingEmis ≤ 24) &&
          decide (8 < l.interestRate)) := by
      rw [List.mem_filter]
      exact ⟨hmem, by simp [h24, h8]⟩
    rw [if_neg (by simpa [List.isEmpty_iff] using List.ne_nil_of_mem hmemf)]
  · rw [if_neg hex]
    have hnil : (loans.filter (fun l : Loan => l.isActive)).filter (fun l =>
        decide ((calculateLoanDetails l today).remainingEmis ≤ 24) &&
          decide (8 < l.interestRate)) = [] := by
      rw [List.filter_eq_nil_iff]
      intro a ha
      simp only [Bool.and_eq_true, decide_eq_true_eq, not_and]
      intro h24 h8
      exact hex ⟨a, ha, h24, h8⟩
    rw [if_pos (by simp [hnil])]

/-- C9 counterexample: with no loans at all (hence no active loan) the
generator returns the empty list, so the static emergency-fund reminder
is NOT always included in the output. -/
theorem generateSuggestions_counterexample :
    emergencyFundSuggestion ∉ generateSuggestions ([] : List Loan) ⟨24300, 1⟩ := by
  simp [generateSuggestions]

/-- Active loan for the C9 witness: rate 12 > 8, 20 EMIs remaining. -/
def wC9loan : Loan :=
  { id := "c9", name := "C9", principalAmount := 100000, currentPrincipal := 100000,
    interestRate := 12, tenure := 20, emiAmount := 6000, useCustomEmi := true,
    customEmi := some 6000, startDate := ⟨24300, 1⟩, isActive := true, partPayments := [] }

/-- Witness for C9's amended structure on a singleton active portfolio. -/
theorem generateSuggestions_witness :
    ([wC9loan] : List Loan).filter (fun l : Loan => l.isActive) ≠ [] ∧
      (∃ hl : Loan,
        headMaxRate (([wC9loan] : List Loan).filter (fun l : Loan => l.isActive)) = some hl ∧
        generateSuggestions [wC9loan] ⟨24300, 1⟩ =
          (if 12 < (calculateLoanDetails hl ⟨24300, 1⟩).remainingEmis then
            [partPaymentSuggestion hl (calculatePartPaymentSavings hl 50000 ⟨24300, 1⟩)]
           else []) ++
          (if ∃ l ∈ ([wC9loan] : List Loan).filter (fun l : Loan => l.isActive),
              (calculateLoanDetails l ⟨24300, 1⟩).remainingEmis ≤ 24 ∧ 8 < l.interestRate then
            [shortTermSuggestion]
           else []) ++ [emergencyFundSuggestion]) :=
  ⟨by simp [wC9loan], generateSuggestions_resultStructure [wC9loan] ⟨24300, 1⟩ (by simp [wC9loan])⟩

/-! ## C8: combined projection of a two-loan portfolio -/

/-- Every recorded projection balance is floored at 0. -/
theorem projLoop_entry_nonneg (emi mr : ℚ) :
    ∀ fuel rp month, ∀ e ∈ projLoop emi mr rp month fuel, 0 ≤ e.remainingPrincipal := by
  intro fuel
  induction fuel with
  | zero => intro rp month e he; simp [projLoop] at he
  | succ f ih =>
      intro rp month e he
      simp only [projLoop] at he
      split at he
      · rw [List.mem_singleton] at he
        subst he
        rw [mathMax_eq]
        exact le_max_left _ _
      · rcases List.mem_cons.mp he with h | h
        · subst h
          rw [mathMax_eq]
          exact le_max_left _ _
        · exact ih _ _ _ h

/-- Every projection entry except possibly the last has a strictly
positive balance (the loop breaks right after the balance reaches 0). -/
theorem projLoop_getElem_pos (emi mr : ℚ) :
    ∀ fuel rp month i e, (projLoop emi mr rp month fuel)[i]? = some e →
      i + 1 < (projLoop emi mr rp month fuel).length →
      0 < e.remainingPrincipal := by
  intro fuel
  induction fuel with
  | zero => intro rp month i e he; simp [projLoop] at he
  | succ f ih =>
      intro rp month i e he hlt
      simp only [projLoop] at he hlt
      by_cases hcond : mathMax 0 (rp - mathMax 0 (emi - rp * mr)) ≤ 0
      · rw [if_pos hcond] at hlt
        rw [List.length_singleton] at hlt
        omega
      · rw [if_neg hcond] at he hlt
        rw [List.length_cons] at hlt
        cases i with
        | zero =>
            rw [List.getElem?_cons_zero, Option.some_inj] at he
            subst he
            exact lt_of_not_le hcond
        | succ j =>
            rw [List.getElem?_cons_succ] at he
            exact ih _ _ j e he (by omega)

/-- `findMonth` misses months before the loop's starting month. -/
theorem findMonth_lt_none (emi mr : ℚ) :
    ∀ fuel rp month m, m < month →
      findMonth (projLoop emi mr rp month fuel) m = none := by
  intro fuel
  induction fuel with
  | zero => intro rp month m _; simp [projLoop, findMonth]
  | succ f ih =>
      intro rp month m hm
      unfold findMonth
      simp only [projLoop]
      split
      · rw [List.find?_cons_of_neg _ (by simp only [decide_eq_true_eq]; omega)]
        rfl
      · rw [List.find?_cons_of_neg _ (by simp only [decide_eq_true_eq]; omega)]
        exact ih _ _ _ (by omega)

/-- `findMonth` misses months past the recorded range. -/
theorem findMonth_ge_none (emi mr : ℚ) :
    ∀ fuel rp month m, month + (projLoop emi mr rp month fuel).length ≤ m →
      findMonth (projLoop emi mr rp month fuel) m = none := by
  intro fuel
  induction fuel with
  | zero => intro rp month m _; simp [projLoop, findMonth]
  | succ f ih =>
      intro rp month m hm
      revert hm
      unfold findMonth
      simp only [projLoop]
      split
      · intro hm
        simp only [List.length_singleton] at hm
        rw [List.find?_cons_of_neg _ (by simp only [decide_eq_true_eq]; omega)]
        rfl
      · intro hm
        simp only [List.length_cons] at hm
        rw [List.find?_cons_of_neg _ (by simp only [decide_eq_true_eq]; omega)]
        exact ih _ _ _ (by omega)

/-- `findMonth` at `month + i` returns the `i`-th recorded entry. -/
theorem findMonth_getElem (emi mr : ℚ) :
    ∀ fuel rp month i, i < (projLoop emi mr rp month fuel).length →
      findMonth (projLoop emi mr rp month fuel) (month + i) =
        (projLoop emi mr rp month fuel)[i]? := by
  intro fuel
  induction fuel with
  | zero => intro rp month i h; simp [projLoop] at h
  | succ f ih =>
      intro rp month i h
      revert h
      unfold findMonth
      simp only [projLoop]
      split
      · intro h
        have h0 : i = 0 := by
          simp only [List.length_singleton] at h
          omega
        subst h0
        rw [List.find?_cons_of_pos _ (by simp)]
        simp
      · intro h
        cases i with
        | zero =>
            rw [List.find?_cons_of_pos _ (by simp)]
            simp
        | succ j =>
            simp only [List.length_cons] at h
            rw [List.find?_cons_of_neg _ (by simp only [decide_eq_true_eq]; omega)]
            rw [List.getElem?_cons_succ]
            rw [show month + (j + 1) = month + 1 + j by omega]
            exact ih _ (month + 1) j (by omega)

/-- One-step unfolding of the combined-projection loop. -/
theorem combLoop_succ (projs : List (List ProjEntry)) (month fuel : ℕ) :
    combLoop projs month (fuel + 1) =
      (if (projs.map (fun p => ((findMonth p month).map
            (fun e => e.remainingPrincipal)).getD 0)).sum ≤ 0 ∧ 1 < month then []
       else
        ⟨month,
          (projs.map (fun p => ((findMonth p month).map
            (fun e => e.principalPayment)).getD 0)).sum,
          (projs.map (fun p => ((findMonth p month).map
            (fun e => e.interestPayment)).getD 0)).sum,
          (projs.map (fun p => ((findMonth p month).map
            (fun e => e.remainingPrincipal)).getD 0)).sum⟩ ::
          combLoop projs (month + 1) fuel) := rfl

/-- Length of the two-projection combined loop: with nonnegative first
contributions, a positive second balance through month `L2 − 1`, and a
zero total at month `L2`, the loop started at month `m ∈ [2, L2]` with
enough fuel records exactly the months `m … L2 − 1` (the month-`L2`
all-zero row triggers the stop before it is recorded). -/
theorem combLoop_two_len (p1 p2 : List ProjEntry) (L2 : ℕ)
    (hA : ∀ m e, findMonth p1 m = some e → 0 ≤ e.remainingPrincipal)
    (hB : ∀ m, 2 ≤ m → m < L2 → ∃ e, findMonth p2 m = some e ∧ 0 < e.remainingPrincipal)
    (hC1 : findMonth p1 L2 = none)
    (hC2 : ∃ e, findMonth p2 L2 = some e ∧ e.remainingPrincipal = 0) :
    ∀ fuel m, 2 ≤ m → m ≤ L2 → L2 ≤ m + fuel →
      (combLoop [p1, p2] m fuel).length = L2 - m := by
  intro fuel
  induction fuel with
  | zero =>
      intro m h2 hm hf
      have hmL : m = L2 := by omega
      subst hmL
      simp [combLoop]
  | succ f ih =>
      intro m h2 hm hf
      by_cases hmL : m = L2
      · subst hmL
        obtain ⟨e, he, he0⟩ := hC2
        rw [combLoop_succ]
        rw [if_pos ⟨by simp [hC1, he, he0], by omega⟩]
        simp
      · have hmlt : m < L2 := by omega
        obtain ⟨e, he, hepos⟩ := hB m h2 hmlt
        rw [combLoop_succ]
        have hneg : ¬((List.map (fun p =>
            (Option.map (fun e => e.remainingPrincipal) (findMonth p m)).getD 0)
              [p1, p2]).sum ≤ 0 ∧ 1 < m) := by
          intro hcon
          have hsum := hcon.1
          simp only [List.map_cons, List.map_nil, List.sum_cons, List.sum_nil,
            he, Option.map_some', Option.getD_some, add_zero] at hsum
          have hc1 : 0 ≤ (Option.map (fun e => e.remainingPrincipal)
              (findMonth p1 m)).getD 0 := by
            cases hfind : findMonth p1 m with
            | none => simp
            | some e1 => simpa using hA m e1 hfind
          linarith
        rw [if_neg hneg]
        rw [List.length_cons]
        rw [ih (m + 1) (by omega) (by omega) (by omega)]
        omega

/-- `calculateLoanProjection` in explicit `projLoop` form. -/
theorem calculateLoanProjection_eq (l : Loan) (today : SimpleDate) :
    calculateLoanProjection l today =
      projLoop (calculateLoanDetails l today).emiAmount (l.interestRate / 100 / 12)
        (calculateLoanDetails l today).remainingPrincipal 1
        (min (calculateLoanDetails l today).remainingEmis 60) := rfl

/-- The combined projection of two active loans whose second projection
has `L2 ≥ 2` rows ending at a zero balance, the first being shorter,
records exactly `L2 − 1` rows. -/
theorem getCombined_two_length (l1 l2 : Loan) (today : SimpleDate)
    (h1a : l1.isActive = true) (h2a : l2.isActive = true)
    (L2 : ℕ) (hL2 : (calculateLoanProjection l2 today).length = L2)
    (h2ge : 2 ≤ L2) (hcap : L2 ≤ 60)
    (hlt : (calculateLoanProjection l1 today).length < L2)
    (hlast2 : (calculateLoanProjection l2 today).getLast?.map
      (fun e => e.remainingPrincipal) = some 0) :
    (getCombinedLoanProjection [l1, l2] today).length = L2 - 1 := by
  have hproj1 := calculateLoanProjection_eq l1 today
  have hproj2 := calculateLoanProjection_eq l2 today
  have hA : ∀ m e, findMonth (calculateLoanProjection l1 today) m = some e →
      0 ≤ e.remainingPrincipal := by
    intro m e hf
    rw [hproj1] at hf
    exact projLoop_entry_nonneg _ _ _ _ _ e (List.mem_of_find?_eq_some hf)
  have hB : ∀ m, 2 ≤ m → m < L2 →
      ∃ e, findMonth (calculateLoanProjection l2 today) m = some e ∧
        0 < e.remainingPrincipal := by
    intro m hm2 hmlt
    have hi : m - 1 < (calculateLoanProjection l2 today).length := by omega
    obtain ⟨e, hee⟩ : ∃ e, (calculateLoanProjection l2 today)[m - 1]? = some e :=
      ⟨_, List.getElem?_eq_getElem hi⟩
    refine ⟨e, ?_, ?_⟩
    · have hfm := findMonth_getElem (calculateLoanDetails l2 today).emiAmount
        (l2.interestRate / 100 / 12)
        (min (calculateLoanDetails l2 today).remainingEmis 60)
        (calculateLoanDetails l2 today).remainingPrincipal 1 (m - 1)
        (by rw [← hproj2]; exact hi)
      rw [← hproj2] at hfm
      rw [show 1 + (m - 1) = m by omega] at hfm
      rw [hfm, hee]
    · apply projLoop_getElem_pos (calculateLoanDetails l2 today).emiAmount
        (l2.interestRate / 100 / 12)
        (min (calculateLoanDetails l2 today).remainingEmis 60)
        (calculateLoanDetails l2 today).remainingPrincipal 1 (m - 1) e
      · rw [← hproj2]
        exact hee
      · rw [← hproj2]
        omega
  have hC1 : findMonth (calculateLoanProjection l1 today) L2 = none := by
    rw [hproj1]
    apply findMonth_ge_none
    rw [← hproj1]
    omega
  have hC2 : ∃ e, findMonth (calculateLoanProjection l2 today) L2 = some e ∧
      e.remainingPrincipal = 0 := by
    have hi : L2 - 1 < (calculateLoanProjection l2 today).length := by omega
    obtain ⟨e, hee⟩ : ∃ e, (calculateLoanProjection l2 today)[L2 - 1]? = some e :=
      ⟨_, List.getElem?_eq_getElem hi⟩
    refine ⟨e, ?_, ?_⟩
    · have hfm := findMonth_getElem (calculateLoanDetails l2 today).emiAmount
        (l2.interestRate / 100 / 12)
        (min (calculateLoanDetails l2 today).remainingEmis 60)
        (calculateLoanDetails l2 today).remainingPrincipal 1 (L2 - 1)
        (by rw [← hproj2]; exact hi)
      rw [← hproj2] at hfm
      rw [show 1 + (L2 - 1) = L2 by omega] at hfm
      rw [hfm, hee]
    · have hlast := hlast2
      rw [List.getLast?_eq_getElem?, hL2] at hlast
      rw [hee] at hlast
      simpa using hlast
  unfold getCombinedLoanProjection
  have hfilter : ([l1, l2] : List Loan).filter (fun l => l.isActive) = [l1, l2] := by
    simp [List.filter, h1a, h2a]
  rw [hfilter]
  simp only [List.map_cons, List.map_nil]
  rw [show (60 : ℕ) = 59 + 1 from rfl, combLoop_succ]
  rw [if_neg (fun hcon => absurd hcon.2 (by omega))]
  rw [List.length_cons]
  rw [combLoop_two_len (calculateLoanProjection l1 today)
    (calculateLoanProjection l2 today) L2 hA hB hC1 hC2 59 2 (by omega) (by omega) (by omega)]
  omega

/-- C8 (amended): for two active loans with resolved `remainingEmis` 10
and 20 whose projections amortize to zero exactly at their 10th and 20th
projected months, the combined projection records exactly 19 monthly
entries — one fewer than 20, because the month-20 all-zero total fires
the stop check before that row is pushed — and the first loan contributes
nothing (no projection row) to any month after 10. -/
theorem combinedProjection_two_loans (l1 l2 : Loan) (today : SimpleDate)
    (h1a : l1.isActive = true) (h2a : l2.isActive = true)
    (hr1 : (calculateLoanDetails l1 today).remainingEmis = 10)
    (hr2 : (calculateLoanDetails l2 today).remainingEmis = 20)
    (hlen1 : (calculateLoanProjection l1 today).length = 10)
    (hlast1 : (calculateLoanProjection l1 today).getLast?.map
      (fun e => e.remainingPrincipal) = some 0)
    (hlen2 : (calculateLoanProjection l2 today).length = 20)
    (hlast2 : (calculateLoanProjection l2 today).getLast?.map
      (fun e => e.remainingPrincipal) = some 0) :
    (getCombinedLoanProjection [l1, l2] today).length = 19 ∧
    ∀ m : ℕ, 10 < m → findMonth (calculateLoanProjection l1 today) m = none := by
  constructor
  · have h := getCombined_two_length l1 l2 today h1a h2a 20 hlen2 (by omega) (by omega)
      (by omega) hlast2
    simpa using h
  · intro m hm
    rw [calculateLoanProjection_eq]
    apply findMonth_ge_none
    rw [← calculateLoanProjection_eq, hlen1]
    omega

/-- First loan for C8: amortizes in exactly 10 months (rate 0, EMI 100,
balance 1000). -/
def wC8a : Loan :=
  { id := "c8a", name := "C8A", principalAmount := 1000, currentPrincipal := 1000,
    interestRate := 0, tenure := 10, emiAmount := 100, useCustomEmi := true,
    customEmi := some 100, startDate := ⟨24300, 1⟩, isActive := true, partPayments := [] }

/-- Second loan for C8: amortizes in exactly 20 months (rate 0, EMI 100,
balance 2000). -/
def wC8b : Loan :=
  { id := "c8b", name := "C8B", principalAmount := 2000, currentPrincipal := 2000,
    interestRate := 0, tenure := 20, emiAmount := 100, useCustomEmi := true,
    customEmi := some 100, startDate := ⟨24300, 1⟩, isActive := true, partPayments := [] }

/-- Today for C8: before the first due date, so no EMIs are consumed. -/
def wC8t : SimpleDate := ⟨24300, 1⟩

/-- Resolved remaining EMIs of the first C8 loan. -/
theorem wC8a_remEmis : (calculateLoanDetails wC8a wC8t).remainingEmis = 10 := by
  norm_num [calculateLoanDetails, wC8a, wC8t, getEmisPaid, getSelectedEmi, dateLt,
    addMonthsD, intMax, intMin, fwdBalance, interestSum, mathMax, calculateEMI]

/-- Resolved remaining EMIs of the second C8 loan. -/
theorem wC8b_remEmis : (calculateLoanDetails wC8b wC8t).remainingEmis = 20 := by
  norm_num [calculateLoanDetails, wC8b, wC8t, getEmisPaid, getSelectedEmi, dateLt,
    addMonthsD, intMax, intMin, fwdBalance, interestSum, mathMax, calculateEMI]

/-- The first C8 loan's projection has 10 rows. -/
theorem wC8a_len : (calculateLoanProjection wC8a wC8t).length = 10 := by
  norm_num [calculateLoanProjection, projLoop, calculateLoanDetails, wC8a, wC8t,
    getEmisPaid, getSelectedEmi, dateLt, addMonthsD, intMax, intMin, fwdBalance,
    interestSum, mathMax, calculateEMI]

/-- The first C8 loan's projection ends at balance 0. -/
theorem wC8a_last : (calculateLoanProjection wC8a wC8t).getLast?.map
    (fun e => e.remainingPrincipal) = some 0 := by
  norm_num [calculateLoanProjection, projLoop, calculateLoanDetails, wC8a, wC8t,
    getEmisPaid, getSelectedEmi, dateLt, addMonthsD, intMax, intMin, fwdBalance,
    interestSum, mathMax, calculateEMI]

/-- The second C8 loan's projection has 20 rows. -/
theorem wC8b_len : (calculateLoanProjection wC8b wC8t).length = 20 := by
  norm_num [calculateLoanProjection, projLoop, calculateLoanDetails, wC8b, wC8t,
    getEmisPaid, getSelectedEmi, dateLt, addMonthsD, intMax, intMin, fwdBalance,
    interestSum, mathMax, calculateEMI]

/-- The second C8 loan's projection ends at balance 0. -/
theorem wC8b_last : (calculateLoanProjection wC8b wC8t).getLast?.map
    (fun e => e.remainingPrincipal) = some 0 := by
  norm_num [calculateLoanProjection, projLoop, calculateLoanDetails, wC8b, wC8t,
    getEmisPaid, getSelectedEmi, dateLt, addMonthsD, intMax, intMin, fwdBalance,
    interestSum, mathMax, calculateEMI]

/-- C8 counterexample: a two-loan portfolio with resolved remainingEmis
10 and 20, each amortizing to zero within its remaining count, whose
combined projection has 19 entries — not 20 as claimed. -/
theorem combinedProjection_counterexample :
    (calculateLoanDetails wC8a wC8t).remainingEmis = 10 ∧
    (calculateLoanDetails wC8b wC8t).remainingEmis = 20 ∧
    (calculateLoanProjection wC8a wC8t).getLast?.map
      (fun e => e.remainingPrincipal) = some 0 ∧
    (calculateLoanProjection wC8b wC8t).getLast?.map
      (fun e => e.remainingPrincipal) = some 0 ∧
    (getCombinedLoanProjection [wC8a, wC8b] wC8t).length ≠ 20 := by
  refine ⟨wC8a_remEmis, wC8b_remEmis, wC8a_last, wC8b_last, ?_⟩
  have h := getCombined_two_length wC8a wC8b wC8t rfl rfl 20 wC8b_len (by omega) (by omega)
    (by rw [wC8a_len]; omega) wC8b_last
  omega

/-- Witness for C8's amended statement at the concrete two-loan
portfolio. -/
theorem combinedProjection_witness :
    wC8a.isActive = true ∧
      ((getCombinedLoanProjection [wC8a, wC8b] wC8t).length = 19 ∧
        ∀ m : ℕ, 10 < m → findMonth (calculateLoanProjection wC8a wC8t) m = none) :=
  ⟨rfl, combinedProjection_two_loans wC8a wC8b wC8t rfl rfl wC8a_remEmis wC8b_remEmis
    wC8a_len wC8a_last wC8b_len wC8b_last⟩
